import Mathlib

/-!
Verification of the contract versioning and lifecycle engine of the
Contract-Management-System backend.

The definitions below are a shallow embedding of the Python source:

* `app/services/contract_service.py` — `ContractService.create_contract`,
  `update_contract`, `renew_contract` (the lifecycle engine);
* `app/repositories/contract_repository.py` — `find_by_instance_id`,
  `get_max_version`;
* `app/models/contract.py` — the `Contract` model and
  `generate_instance_id`;
* `app/utils/activity_logger.py` — `log_activity`;
* `seed_database.py` — the seeded status / contract-type lookup tables.

Modelling conventions:

* Dates are `Nat` (ordinal days).  The code parses `YYYY-MM-DD` strings with
  `strptime` and then only compares the resulting `date` objects with `<=`
  and `<`; parsing is abstracted away (a missing / blank form field is
  `none`), malformed-format errors are outside the claims considered here.
* Monetary values are carried as their decimal string (the code stores a
  numeric and renders it with `str()` when diffing; `float()` parsing is
  abstracted to the identity on the string).
* Python truthiness on optional strings (`if data.get(k)`) is `optTruthy`:
  `None` and the empty string are falsy.
* `uuid.uuid4()` in `Contract.generate_contract_id` is modelled as a
  fresh-supply counter `nextId` threaded through the state: uuids are opaque
  identifiers whose only used property is freshness.
* The blob store (`StorageService.save_file` / `delete_file`) is modelled as
  a trace of operations `blobOps`; `save_file`'s path derivation and
  allowed-extension filtering are abstracted (no claim depends on them), the
  stored path is the secured filename.
* The database session is modelled by explicit state passing: `db.session`
  writes become list appends / in-place list updates, `commit` failure is an
  injected boolean `commitOk` at the single point where the straight-line
  renewal code can fail after the file bytes were saved; the API handler's
  `except ... db.session.rollback()` (contracts.py lines 679-684) restores
  the row state but, as in the source, performs no blob-store compensation.
-/

namespace CMS

/-- Contract status lookup table as seeded by `seed_database.py`
(`contract_status` rows, ids assigned 1..5 in insertion order). -/
def statusTable : List String := ["draft", "pending", "active", "expired", "renewed"]

/-- Contract type lookup table as seeded by `seed_database.py`. -/
def contractTypeTable : List String := ["service", "nda", "employment", "vendor", "lease", "other"]

/-- Generic name-to-id lookup over a seeded table (`get_id_by_name` in the
repositories): returns the 1-based row id of the first row with the given
name, or `none`. -/
def lookupId : List String → Nat → String → Option Nat
  | [], _, _ => none
  | n :: rest, i, name => if n = name then some i else lookupId rest (i + 1) name

/-- `ContractStatusRepository.get_id_by_name` over the seeded table. -/
def get_status_id (name : String) : Option Nat := lookupId statusTable 1 name

/-- `ContractTypeRepository.get_id_by_name` over the seeded table. -/
def get_contract_type_id (name : String) : Option Nat := lookupId contractTypeTable 1 name

/-- Reverse lookup: row name for a 1-based id (the ORM relationship
`contract.contract_type.name` reached through the foreign key). -/
def nameOfId : List String → Nat → Nat → Option String
  | [], _, _ => none
  | n :: rest, i, target => if i = target then some n else nameOfId rest (i + 1) target

/-- Name of a contract type id (`contract.contract_type.name`). -/
def contract_type_name (tid : Nat) : Option String := nameOfId contractTypeTable 1 tid

/-- Python truthiness of an optional string: `None` and `""` are falsy. -/
def optTruthy : Option String → Bool
  | none => false
  | some s => s ≠ ""

/-- `str(x) if x else None` on an optional string value. -/
def truthyOrNone (v : Option String) : Option String :=
  match v with
  | some x => if x = "" then none else some x
  | none => none

/-- `v or 'empty'` on a string (empty string falls back to the sentinel). -/
def strOrEmpty (v : String) : String := if v = "" then "empty" else v

/-- `v or 'empty'` on an optional string. -/
def optOrEmpty (v : Option String) : String :=
  match v with
  | some x => if x = "" then "empty" else x
  | none => "empty"

/-- One row of the `contracts` table as the lifecycle code manipulates it
(`app/models/contract.py` plus the attributes the service and API read and
write on loaded rows; the status foreign key is represented by the joined
status name, statuses being unique by name).  Note: the declared-attribute
mismatch between this record and the actual SQLAlchemy model declaration is
the subject of its own claim; see `contractModelAttrs` below. -/
structure Contract where
  contract_instance_id : String
  id : Nat
  contract_name : String
  client_name : String
  contract_type_id : Nat
  status : String
  created_by : Nat
  start_date : Nat
  end_date : Option Nat
  value : Option String
  version : Nat
  renewed_from : Option String := none
  renewed_to : Option String := none
  description : String := ""
deriving Repr, DecidableEq

/-- One row of the `documents` table (`app/models/document.py`). -/
structure Document where
  contract_instance_id : String
  document_name : String
  file_path : String
  file_size : Nat
  version : Nat
  document_type_id : Nat
  uploaded_by : Nat
deriving Repr, DecidableEq

/-- One field-level diff entry logged by `update_contract`. -/
structure FieldChange where
  field : String
  oldValue : String
  newValue : String
deriving Repr, DecidableEq

/-- One row of `activity_history` (`app/models/activity_history.py`,
written by `log_activity`). -/
structure Activity where
  contract_instance_id : String
  type : String
  message : String
  changes : List FieldChange
deriving Repr, DecidableEq

/-- A blob-store operation (`StorageService.save_file` / `delete_file`). -/
inductive BlobOp
  | save (path : String)
  | delete (path : String)
deriving Repr, DecidableEq

/-- An uploaded file (`werkzeug` `FileStorage`): secured filename and size. -/
structure FileData where
  filename : String
  size : Nat
deriving Repr, DecidableEq

/-- The durable state: the three tables, the blob-store operation trace, and
the fresh-uuid supply. -/
structure Sys where
  contracts : List Contract
  documents : List Document
  activities : List Activity
  blobOps : List BlobOp
  nextId : Nat
deriving Repr, DecidableEq

/-- `ContractRepository.find_by_instance_id`: first row whose
`contract_instance_id` matches. -/
def find_by_instance_id : List Contract → String → Option Contract
  | [], _ => none
  | c :: rest, iid =>
    if c.contract_instance_id = iid then some c else find_by_instance_id rest iid

/-- `ContractRepository.get_max_version`: `MAX(version)` over the rows of a
logical contract, `0` if none exist. -/
def get_max_version (contracts : List Contract) (cid : Nat) : Nat :=
  (contracts.filter (fun c => c.id = cid)).foldl (fun m c => max m c.version) 0

/-- `Contract.generate_instance_id(contract_id, version)`:
`f"CTR_{contract_id}_V{version}"`. -/
def generate_instance_id (cid : Nat) (version : Nat) : String :=
  "CTR_" ++ toString cid ++ "_V" ++ toString version

/-- Caller payload of `ContractService.create_contract` (the `data` dict of
form fields; blank fields are `""` / `none`).  The `status` field is what
the caller supplies: the service never reads it (and the API hardcodes
`status = 'draft'` before the lookup). -/
structure CreateData where
  contractName : String
  clientName : String
  contractType : String
  startDate : Option Nat
  endDate : Option Nat
  value : Option String
  status : String
  description : String
deriving Repr, DecidableEq

/-- Return payload of `ContractService.create_contract`. -/
structure CreateResult where
  id : String
  contractId : Nat
  contractName : String
  fileName : Option String
deriving Repr, DecidableEq

/-- `ContractService.create_contract` (contract_service.py lines 113-197):
validates required fields, resolves lookups, saves the optional file,
creates the version-1 row with status forced to `'draft'`, the optional
document row, and the `created` activity. -/
def create_contract (s : Sys) (data : CreateData) (file : Option FileData) (user_id : Nat) :
    Sys × Except String CreateResult :=
  if data.contractName = "" then (s, .error "Missing required field: contractName")
  else if data.clientName = "" then (s, .error "Missing required field: clientName")
  else if data.contractType = "" then (s, .error "Missing required field: contractType")
  else
    match data.startDate with
    | none => (s, .error "Missing required field: startDate")
    | some start_date =>
      match get_contract_type_id data.contractType with
      | none => (s, .error ("Invalid contract type: " ++ data.contractType))
      | some contract_type_id =>
        match get_status_id "draft" with
        | none => (s, .error "Draft status not found in database")
        | some _ =>
          let blobOps := match file with
            | some f => s.blobOps ++ [BlobOp.save f.filename]
            | none => s.blobOps
          let contract_id := s.nextId
          let version := 1
          let iid := generate_instance_id contract_id version
          let contract : Contract :=
            { contract_instance_id := iid
              id := contract_id
              contract_name := data.contractName
              client_name := data.clientName
              contract_type_id := contract_type_id
              status := "draft"
              created_by := user_id
              start_date := start_date
              end_date := data.endDate
              value := if optTruthy data.value then data.value else none
              version := version
              renewed_from := none
              renewed_to := none
              description := data.description }
          let documents := match file with
            | some f => s.documents ++
                [{ contract_instance_id := iid, document_name := f.filename,
                   file_path := f.filename, file_size := f.size, version := 1,
                   document_type_id := 1, uploaded_by := user_id }]
            | none => s.documents
          let activities := s.activities ++
            [{ contract_instance_id := iid, type := "created",
               message := "Contract '" ++ data.contractName ++ "' created", changes := [] }]
          ({ contracts := s.contracts ++ [contract], documents := documents,
             activities := activities, blobOps := blobOps, nextId := s.nextId + 1 },
           .ok { id := iid, contractId := contract_id,
                 contractName := data.contractName, fileName := file.map (·.filename) })

/-- Caller payload of `ContractService.update_contract` (a JSON dict; `none`
at the outer level means the key is absent from the dict).  `endDate` and
`value` distinguish a key present with a blank value (the code then stores
NULL) from an absent key, mirroring
`data['endDate'] if data['endDate'] else None`. -/
structure UpdateData where
  contractName : Option String := none
  clientName : Option String := none
  contractType : Option String := none
  status : Option String := none
  startDate : Option Nat := none
  endDate : Option (Option Nat) := none
  value : Option String := none
  description : Option String := none
deriving Repr, DecidableEq

/-- The status-transition guard inlined in `ContractService.update_contract`
(contract_service.py lines 240-261), transcribed in source order: `renewed`
is archived, `active` may only move to `active`/`expired`, `expired` is
locked, and the requested name must exist in the status table. -/
def statusGuard (current_status new_status : String) : Except String Unit :=
  if current_status = "renewed" then
    .error "Cannot change status of renewed contract. This is an archived version."
  else if current_status = "active" ∧ new_status ≠ "active" ∧ new_status ≠ "expired" then
    .error ("Active contracts can only be marked as expired. Cannot change to " ++ new_status ++ ".")
  else if current_status = "expired" then
    .error "Expired contracts are locked and cannot change status. Consider creating a new contract or renewing."
  else
    match get_status_id new_status with
    | some _ => .ok ()
    | none => .error ("Invalid status: " ++ new_status)

/-- The field-diff list computed by `ContractService.update_contract`
(contract_service.py lines 274-337): one entry per differing field, in
source order, values rendered as the code renders them (`'empty'` sentinel
for falsy values, a `$` prefix on monetary values, dates via `isoformat`,
which is injective and modelled by `toString`). -/
def diffChanges (old new : Contract) : List FieldChange :=
  (if old.contract_name ≠ new.contract_name then
    [{ field := "contractName", oldValue := strOrEmpty old.contract_name,
       newValue := strOrEmpty new.contract_name }] else [])
  ++ (if old.client_name ≠ new.client_name then
    [{ field := "clientName", oldValue := strOrEmpty old.client_name,
       newValue := strOrEmpty new.client_name }] else [])
  ++ (if contract_type_name old.contract_type_id ≠ contract_type_name new.contract_type_id then
    [{ field := "contractType", oldValue := optOrEmpty (contract_type_name old.contract_type_id),
       newValue := optOrEmpty (contract_type_name new.contract_type_id) }] else [])
  ++ (if old.status ≠ new.status then
    [{ field := "status", oldValue := strOrEmpty old.status,
       newValue := strOrEmpty new.status }] else [])
  ++ (if old.start_date ≠ new.start_date then
    [{ field := "startDate", oldValue := toString old.start_date,
       newValue := toString new.start_date }] else [])
  ++ (if old.end_date ≠ new.end_date then
    [{ field := "endDate", oldValue := optOrEmpty (old.end_date.map toString),
       newValue := optOrEmpty (new.end_date.map toString) }] else [])
  ++ (if truthyOrNone old.value ≠ truthyOrNone new.value then
    [{ field := "value",
       oldValue := match truthyOrNone old.value with
         | some v => "$" ++ v
         | none => "empty",
       newValue := match truthyOrNone new.value with
         | some v => "$" ++ v
         | none => "empty" }] else [])
  ++ (if old.description ≠ new.description then
    [{ field := "description", oldValue := strOrEmpty old.description,
       newValue := strOrEmpty new.description }] else [])

/-- The field patch applied by `ContractService.update_contract`
(contract_service.py lines 229-270) once the status guard has passed: each
present key overwrites its field; an unknown contract type name is silently
ignored; blank `endDate`/`value` store NULL. -/
def applyPatch (c : Contract) (data : UpdateData) : Contract :=
  let c1 := match data.contractName with
    | some n => { c with contract_name := n }
    | none => c
  let c2 := match data.clientName with
    | some n => { c1 with client_name := n }
    | none => c1
  let c3 := match data.contractType with
    | some t =>
      match get_contract_type_id t with
      | some tid => { c2 with contract_type_id := tid }
      | none => c2
    | none => c2
  let c4 := match data.status with
    | some n => { c3 with status := n }
    | none => c3
  let c5 := match data.startDate with
    | some d => { c4 with start_date := d }
    | none => c4
  let c6 := match data.endDate with
    | some d => { c5 with end_date := d }
    | none => c5
  let c7 := match data.value with
    | some v => { c6 with value := if v = "" then none else some v }
    | none => c6
  match data.description with
  | some d => { c7 with description := d }
  | none => c7

/-- `ContractService.update_contract` (contract_service.py lines 199-351):
loads the row (`.ok none` when absent, as the code returns `None`), captures
the pre-mutation snapshot, validates a requested status change through the
inline guard (raising leaves the state unchanged: nothing was committed),
applies the patch, computes the field diffs, commits, and logs exactly one
`modified` activity when the diff list is non-empty. -/
def update_contract (s : Sys) (iid : String) (data : UpdateData) :
    Sys × Except String (Option Contract) :=
  match find_by_instance_id s.contracts iid with
  | none => (s, .ok none)
  | some contract =>
    match (match data.status with
           | some new_status => statusGuard contract.status new_status
           | none => .ok ()) with
    | .error e => (s, .error e)
    | .ok _ =>
      let updated := applyPatch contract data
      let changes := diffChanges contract updated
      let contracts := s.contracts.map
        (fun c => if c.contract_instance_id = iid then updated else c)
      let activities :=
        if changes = [] then s.activities
        else s.activities ++
          [{ contract_instance_id := iid, type := "modified",
             message := "Contract updated - " ++ toString changes.length ++ " field(s) changed",
             changes := changes }]
      ({ s with contracts := contracts, activities := activities }, .ok (some updated))

/-- Caller payload of `ContractService.renew_contract` (form fields;
blank/missing dates are `none`, `new_value` is the raw form string). -/
structure RenewData where
  new_start_date : Option Nat := none
  new_end_date : Option Nat := none
  new_value : Option String := none
deriving Repr, DecidableEq

/-- Return payload of `ContractService.renew_contract`. -/
structure RenewResult where
  old_version : String
  new_version : String
  new_contract_id : String
deriving Repr, DecidableEq

/-- `ContractService.renew_contract` (contract_service.py lines 405-511),
with the API handler's failure handling (contracts.py lines 679-684):
preconditions in source order (found; status exactly `'active'`; `renewed_to`
falsy; both dates present; end after start; start not in the past; file
supplied), then the file save, the `max(version)+1` computation, the new
draft row copying the descriptive fields and defaulting `value` to the old
row's, the document row, and the terminal write on the old row — committed
as one unit.  `commitOk = false` injects a storage failure at commit: the
handler rolls the session back (rows restored) but, as in the source, never
invokes the blob-store delete on the file saved earlier in the attempt. -/
def renew_contract (s : Sys) (iid : String) (data : RenewData) (file : Option FileData)
    (user_id : Nat) (today : Nat) (commitOk : Bool) : Sys × Except String RenewResult :=
  match find_by_instance_id s.contracts iid with
  | none => (s, .error "Contract not found")
  | some old_contract =>
    if old_contract.status ≠ "active" then
      (s, .error ("Can only renew active contracts. Current status: " ++ old_contract.status))
    else if optTruthy old_contract.renewed_to then
      (s, .error ("Contract already renewed to " ++ old_contract.renewed_to.getD ""))
    else
      match data.new_start_date, data.new_end_date with
      | none, _ => (s, .error "new_start_date and new_end_date are required")
      | some _, none => (s, .error "new_start_date and new_end_date are required")
      | some start_date_obj, some end_date_obj =>
        if end_date_obj ≤ start_date_obj then
          (s, .error "End date must be after start date")
        else if start_date_obj < today then
          (s, .error "Start date cannot be in the past")
        else
          match file with
          | none => (s, .error "Contract document is required for renewal")
          | some f =>
            let blobOps := s.blobOps ++ [BlobOp.save f.filename]
            let new_version := get_max_version s.contracts old_contract.id + 1
            let new_iid := generate_instance_id old_contract.id new_version
            match get_status_id "draft" with
            | none => ({ s with blobOps := blobOps }, .error "Draft status not found in database")
            | some _ =>
              let new_contract : Contract :=
                { contract_instance_id := new_iid
                  id := old_contract.id
                  contract_name := old_contract.contract_name
                  client_name := old_contract.client_name
                  contract_type_id := old_contract.contract_type_id
                  status := "draft"
                  created_by := user_id
                  start_date := start_date_obj
                  end_date := some end_date_obj
                  value := if optTruthy data.new_value then data.new_value else old_contract.value
                  version := new_version
                  renewed_from := some old_contract.contract_instance_id
                  renewed_to := none
                  description := old_contract.description }
              let new_doc : Document :=
                { contract_instance_id := new_iid, document_name := f.filename,
                  file_path := f.filename, file_size := f.size, version := 1,
                  document_type_id := 1, uploaded_by := user_id }
              let contracts := (s.contracts.map (fun c =>
                  if c.contract_instance_id = iid then
                    { c with status := "renewed", renewed_to := some new_iid }
                  else c)) ++ [new_contract]
              if commitOk then
                ({ s with contracts := contracts,
                          documents := s.documents ++ [new_doc],
                          blobOps := blobOps },
                 .ok { old_version := old_contract.contract_instance_id,
                       new_version := new_iid, new_contract_id := new_iid })
              else
                ({ s with blobOps := blobOps }, .error "Storage failure on commit")

/-- A lifecycle operation of the engine (the mutations a chain can undergo
through `ContractService`): initial create or renewal. -/
inductive Op
  | create (data : CreateData) (file : Option FileData) (user_id : Nat)
  | renew (iid : String) (data : RenewData) (file : Option FileData)
      (user_id : Nat) (today : Nat) (commitOk : Bool)
deriving Repr

/-- Run one operation; a raised error leaves the returned state (errors are
reported to the caller, writes before a failed commit are rolled back). -/
def applyOp (s : Sys) : Op → Sys
  | .create d f u => (create_contract s d f u).1
  | .renew iid d f u today ok => (renew_contract s iid d f u today ok).1

/-- Run a sequence of lifecycle operations from a state. -/
def runOps (s : Sys) : List Op → Sys
  | [] => s
  | op :: rest => runOps (applyOp s op) rest

/-- The empty deployment state: no rows, fresh id supply at 0. -/
def initSys : Sys :=
  { contracts := [], documents := [], activities := [], blobOps := [], nextId := 0 }

/-- The version numbers of one logical contract's chain, in row-insertion
order. -/
def chainVersions (contracts : List Contract) (cid : Nat) : List Nat :=
  (contracts.filter (fun c => c.id = cid)).map (·.version)

/-- Invariant of reachable states: every stored logical id is below the
fresh-id supply, and every chain's version list, in row-insertion order, is
exactly `1..n` for some `n`. -/
def ChainInv (s : Sys) : Prop :=
  (∀ c ∈ s.contracts, c.id < s.nextId) ∧
  (∀ cid, ∃ n, chainVersions s.contracts cid = List.range' 1 n)

/-- Attribute names declared on the SQLAlchemy `Contract` model class
(`app/models/contract.py` lines 5-50): its columns, its `documents`
relationship, the `TimestampMixin` columns, and the backrefs installed onto
`Contract` by other models (`contract_type` from `ContractType.contracts`,
`contract_status` from `ContractStatus.contracts`, `activities` from
`ActivityHistory.contract`).  These are exactly the names for which
SQLAlchemy's declarative constructor accepts a keyword argument and for
which attribute access on a loaded row succeeds. -/
def contractModelAttrs : List String :=
  ["contract_instance_id", "id", "contract_name", "client_name",
   "contract_type_id", "status_id", "created_by",
   "start_date", "end_date", "renewal_date", "value", "version",
   "documents", "created_at", "updated_at",
   "contract_type", "contract_status", "activities"]

/-- The keyword arguments `ContractService.renew_contract` passes to the
`Contract` constructor through `ContractRepository.create_contract`
(contract_service.py lines 471-485). -/
def renewConstructorAttrs : List String :=
  ["contract_instance_id", "id", "contract_name", "client_name",
   "contract_type_id", "status_id", "created_by", "start_date", "end_date",
   "value", "version", "renewed_from", "description"]

/-- Attributes the lifecycle operations and read-side serializers read or
write on a loaded `Contract` row beyond the constructor keywords:
`contract.status.name` (the guard checks and every serializer),
`contract.renewed_to` (the double-renewal check and the terminal write
`old_contract.renewed_to = new_contract_instance_id`), `renewed_from` and
`description` (serializers in `get_all_contracts` / `get_contract_details`).
-/
def lifecycleAccessedAttrs : List String :=
  ["status", "renewed_to", "renewed_from", "description"]

/-- Concrete fixture: a version-1 active contract. -/
def activeC : Contract :=
  { contract_instance_id := "CTR_7_V1", id := 7, contract_name := "Supply agreement",
    client_name := "Acme", contract_type_id := 1, status := "active", created_by := 1,
    start_date := 10, end_date := some 20, value := some "50000", version := 1 }

/-- Concrete fixture: a state holding just `activeC`. -/
def activeSys : Sys :=
  { contracts := [activeC], documents := [], activities := [], blobOps := [], nextId := 8 }

/-- Concrete fixture: a version-1 expired contract. -/
def expiredC : Contract :=
  { activeC with contract_instance_id := "CTR_9_V1", id := 9, status := "expired" }

/-- Concrete fixture: a state holding just `expiredC`. -/
def expiredSys : Sys :=
  { contracts := [expiredC], documents := [], activities := [], blobOps := [], nextId := 10 }

/-- Concrete fixture: a version-1 draft contract. -/
def draftC : Contract :=
  { activeC with contract_instance_id := "CTR_5_V1", id := 5, status := "draft" }

/-- Concrete fixture: a state holding just `draftC`. -/
def draftSys : Sys :=
  { contracts := [draftC], documents := [], activities := [], blobOps := [], nextId := 6 }

/-- Concrete fixture: a well-formed renewal payload. -/
def renewOkData : RenewData := { new_start_date := some 100, new_end_date := some 200 }

/-- Concrete fixture: an uploaded renewal document. -/
def pdfFile : FileData := { filename := "renewal.pdf", size := 4 }

/-- Concrete fixture: a well-formed creation payload whose caller-supplied
status is `active` (which the service must ignore). -/
def c2data : CreateData :=
  { contractName := "Alpha", clientName := "Beta", contractType := "nda",
    startDate := some 100, endDate := some 200, value := none, status := "active",
    description := "d" }

/-- Concrete fixture: a creation payload whose end date precedes its start
date. -/
def c7data : CreateData :=
  { contractName := "Gamma", clientName := "Delta", contractType := "service",
    startDate := some 100, endDate := some 50, value := none, status := "draft",
    description := "" }

/-- Concrete fixture: a value-only update patch. -/
def valuePatch : UpdateData := { value := some "75000" }

/-- C1: for every renewal of an active instance with `renewedTo` null, both
dates supplied with the end after the start, the start not in the past, a
document file supplied, and `max(version)` in its chain equal to 1, the
operation succeeds; afterwards the old row has status `renewed` and
`renewedTo` equal to the V2 instance id of its chain, and the appended new
row has version 2, status `draft`, `renewedFrom` the old instance id, value
the caller-supplied new value or else the old row's value, and name,
counterparty and description copied verbatim from the old row. -/
theorem renew_success_postconditions
    (s : Sys) (iid : String) (d : RenewData) (f : FileData) (u today st en : Nat)
    (old : Contract)
    (hfind : find_by_instance_id s.contracts iid = some old)
    (hactive : old.status = "active")
    (hnoren : old.renewed_to = none)
    (hst : d.new_start_date = some st)
    (hen : d.new_end_date = some en)
    (horder : st < en)
    (hfuture : today ≤ st)
    (hmax : get_max_version s.contracts old.id = 1) :
    (renew_contract s iid d (some f) u today true).2 =
      .ok { old_version := old.contract_instance_id,
            new_version := generate_instance_id old.id 2,
            new_contract_id := generate_instance_id old.id 2 } ∧
    (renew_contract s iid d (some f) u today true).1.contracts =
      (s.contracts.map (fun c =>
        if c.contract_instance_id = iid then
          { c with status := "renewed", renewed_to := some (generate_instance_id old.id 2) }
        else c)) ++
      [{ contract_instance_id := generate_instance_id old.id 2
         id := old.id
         contract_name := old.contract_name
         client_name := old.client_name
         contract_type_id := old.contract_type_id
         status := "draft"
         created_by := u
         start_date := st
         end_date := some en
         value := if optTruthy d.new_value then d.new_value else old.value
         version := 2
         renewed_from := some old.contract_instance_id
         renewed_to := none
         description := old.description }] := by
  unfold renew_contract
  rw [hfind, hst, hen]
  simp [hactive, hnoren, optTruthy, Nat.not_le.mpr horder, Nat.not_lt.mpr hfuture, hmax,
    get_status_id, lookupId]

/-- Witness for `renew_success_postconditions` at a concrete state. -/
theorem renew_success_postconditions_witness :
    (renew_contract activeSys "CTR_7_V1" renewOkData (some pdfFile) 2 50 true).2 =
      .ok { old_version := "CTR_7_V1", new_version := "CTR_7_V2",
            new_contract_id := "CTR_7_V2" } :=
  (renew_success_postconditions activeSys "CTR_7_V1" renewOkData pdfFile 2 50 100 200 activeC
    rfl rfl rfl rfl rfl (by decide) (by decide) rfl).1

/-- C2: every successful create call appends exactly one contract row, and
that row has status `draft` and version 1, whatever status value the
caller supplied (`data.status` is quantified and never read by the
service; the API layer additionally hardcodes `'draft'`). -/
theorem create_forces_draft_version_one
    (s : Sys) (d : CreateData) (f : Option FileData) (u : Nat) (r : CreateResult)
    (hok : (create_contract s d f u).2 = .ok r) :
    ∃ c : Contract, (create_contract s d f u).1.contracts = s.contracts ++ [c] ∧
      c.status = "draft" ∧ c.version = 1 := by
  revert hok
  unfold create_contract
  repeat' split
  all_goals intro hok
  all_goals first
    | exact ⟨_, rfl, rfl, rfl⟩
    | simp at hok

/-- Witness for `create_forces_draft_version_one`: a concrete create whose
caller supplied status `active`. -/
theorem create_forces_draft_version_one_witness :
    ∃ c : Contract, (create_contract initSys c2data none 1).1.contracts =
        initSys.contracts ++ [c] ∧ c.status = "draft" ∧ c.version = 1 :=
  create_forces_draft_version_one initSys c2data none 1
    { id := "CTR_0_V1", contractId := 0, contractName := "Alpha", fileName := none } rfl

/-- C3 counterexample: the code accepts a status-changing update from
`draft` straight to `expired`, a pair the claimed transition graph denies.
-/
theorem draft_to_expired_update_allowed :
    (update_contract draftSys "CTR_5_V1" { status := some "expired" }).2 =
      .ok (some { draftC with status := "expired" }) ∧
    (update_contract draftSys "CTR_5_V1" { status := some "expired" }).1.contracts =
      [{ draftC with status := "expired" }] :=
  ⟨rfl, rfl⟩

/-- The inline status guard succeeds exactly when the current status is
neither `renewed` nor `expired`, an `active` current status only moves to
`active` or `expired`, and the requested name exists in the status table. -/
theorem statusGuard_ok_iff (current requested : String) :
    statusGuard current requested = .ok () ↔
      (current ≠ "renewed" ∧ current ≠ "expired" ∧
        (current = "active" → (requested = "active" ∨ requested = "expired")) ∧
        (get_status_id requested).isSome = true) := by
  unfold statusGuard
  split_ifs with h1 h2 h3
  · simp [h1]
  · obtain ⟨hc, hr1, hr2⟩ := h2
    constructor
    · intro h; exact absurd h (by simp)
    · rintro ⟨-, -, himp, -⟩
      rcases himp hc with h | h
      · exact absurd h hr1
      · exact absurd h hr2
  · simp [h3]
  · cases hq : get_status_id requested with
    | none => simp [hq, h1, h3]
    | some v =>
      simp only [hq, Option.isSome_some, and_true]
      simp only [not_and_or, not_not] at h2
      constructor
      · intro _
        refine ⟨h1, h3, fun hc => ?_⟩
        rcases h2 with h | h | h
        · exact absurd hc h
        · exact Or.inl h
        · exact Or.inr h
      · intro _; trivial

/-- A status-only update's outcome is decided by the inline guard: an error
is passed through, otherwise the patched row is returned. -/
theorem update_contract_status_eq
    (s : Sys) (iid : String) (c : Contract) (req : String)
    (hfind : find_by_instance_id s.contracts iid = some c) :
    (update_contract s iid { status := some req }).2 =
      match statusGuard c.status req with
      | .error e => .error e
      | .ok _ => .ok (some (applyPatch c { status := some req })) := by
  unfold update_contract
  rw [hfind]
  cases hg : statusGuard c.status req <;> simp [hg]

/-- C3 (amended): a status-changing update through `update_contract` is
denied exactly when the current status is `renewed`, or the current status
is `expired`, or the current status is `active` and the requested one is
neither `active` nor `expired`, or the requested name is not a known
status; in particular `draft -> expired`, `pending -> draft` and
`pending -> expired` are all accepted, contrary to the claimed graph. -/
theorem update_status_transition_rule
    (s : Sys) (iid : String) (c : Contract) (req : String)
    (hfind : find_by_instance_id s.contracts iid = some c) :
    (∃ e, (update_contract s iid { status := some req }).2 = .error e) ↔
      (c.status = "renewed" ∨ c.status = "expired" ∨
        (c.status = "active" ∧ ¬(req = "active" ∨ req = "expired")) ∨
        get_status_id req = none) := by
  rw [update_contract_status_eq s iid c req hfind]
  constructor
  · rintro ⟨e, he⟩
    by_contra hno
    push_neg at hno
    obtain ⟨h1, h2, h3, h4⟩ := hno
    have hok : statusGuard c.status req = .ok () := by
      rw [statusGuard_ok_iff]
      exact ⟨h1, h2, h3, Option.ne_none_iff_isSome.mp h4⟩
    rw [hok] at he
    simp at he
  · intro hbad
    have hko : statusGuard c.status req ≠ .ok () := by
      intro hok
      rw [statusGuard_ok_iff] at hok
      obtain ⟨hn1, hn2, himp, hsome⟩ := hok
      rcases hbad with h | h | ⟨ha, hr⟩ | h
      · exact hn1 h
      · exact hn2 h
      · exact hr (himp ha)
      · rw [h] at hsome; simp at hsome
    cases hg : statusGuard c.status req with
    | error e => exact ⟨e, rfl⟩
    | ok v => cases v; exact absurd hg hko

/-- Witness for `update_status_transition_rule`: a status change on an
expired contract is denied. -/
theorem update_status_transition_rule_witness :
    ∃ e, (update_contract expiredSys "CTR_9_V1" { status := some "active" }).2 = .error e :=
  (update_status_transition_rule expiredSys "CTR_9_V1" expiredC "active" rfl).mpr
    (Or.inr (Or.inl rfl))

/-- C4: a renewal attempt on an instance whose status is not exactly
`active`, or whose `renewedTo` is already set (renewal links are generated
instance ids, hence never the empty string), fails with the corresponding
policy-violation error and performs zero writes: the returned state — chain,
every version row, every document row, and the blob-store trace — is the
caller's state unchanged. -/
theorem renew_precondition_violation_no_writes
    (s : Sys) (iid : String) (d : RenewData) (f : Option FileData) (u today : Nat) (ok : Bool)
    (old : Contract)
    (hfind : find_by_instance_id s.contracts iid = some old)
    (hbad : old.status ≠ "active" ∨ (old.renewed_to ≠ none ∧ old.renewed_to ≠ some "")) :
    (renew_contract s iid d f u today ok).1 = s ∧
      ((renew_contract s iid d f u today ok).2 =
        .error ("Can only renew active contracts. Current status: " ++ old.status) ∨
       (renew_contract s iid d f u today ok).2 =
        .error ("Contract already renewed to " ++ old.renewed_to.getD "")) := by
  unfold renew_contract
  rw [hfind]
  rcases hbad with hs | ⟨hr1, hr2⟩
  · simp [hs]
  · by_cases hs : old.status = "active"
    · have htr : optTruthy old.renewed_to = true := by
        cases hv : old.renewed_to with
        | none => exact absurd hv hr1
        | some v =>
          simp only [optTruthy, ne_eq, decide_eq_true_eq]
          intro hveq
          exact hr2 (by rw [hv, hveq])
      simp [hs, htr]
    · simp [hs]

/-- Witness for `renew_precondition_violation_no_writes`: renewing an
expired contract is rejected with no writes. -/
theorem renew_precondition_violation_no_writes_witness :
    (renew_contract expiredSys "CTR_9_V1" renewOkData (some pdfFile) 1 50 true).1 =
        expiredSys ∧
      ((renew_contract expiredSys "CTR_9_V1" renewOkData (some pdfFile) 1 50 true).2 =
        .error ("Can only renew active contracts. Current status: " ++ expiredC.status) ∨
       (renew_contract expiredSys "CTR_9_V1" renewOkData (some pdfFile) 1 50 true).2 =
        .error ("Contract already renewed to " ++ expiredC.renewed_to.getD "")) :=
  renew_precondition_violation_no_writes expiredSys "CTR_9_V1" renewOkData (some pdfFile)
    1 50 true expiredC rfl (Or.inl (by decide))

/-- C6 counterexample: a renewal that passes every precondition, saves the
document file and then fails at commit rolls back the row writes — but the
blob-store trace ends holding the save of `renewal.pdf` and no delete:
`StorageService.delete_file` is never invoked as a compensating action (it
has no caller on the renewal path), so the saved bytes are not removed as
the claim states. -/
theorem renew_commit_failure_keeps_saved_file :
    (renew_contract activeSys "CTR_7_V1" renewOkData (some pdfFile) 2 50 false).1.contracts =
        activeSys.contracts ∧
    (renew_contract activeSys "CTR_7_V1" renewOkData (some pdfFile) 2 50 false).1.documents =
        activeSys.documents ∧
    (renew_contract activeSys "CTR_7_V1" renewOkData (some pdfFile) 2 50 false).1.blobOps =
        [BlobOp.save "renewal.pdf"] ∧
    (renew_contract activeSys "CTR_7_V1" renewOkData (some pdfFile) 2 50 false).2 =
        .error "Storage failure on commit" :=
  ⟨rfl, rfl, rfl, rfl⟩

/-- C6 (amended): when a renewal fails at commit, every row write rolls
back — contracts, documents and activities are exactly as before the call —
and the operation reports an error, but the file bytes saved during the
attempt are not removed: the blob trace either is unchanged (the failure
came before the save) or gains exactly the save of the uploaded file, and
never a compensating delete. -/
theorem renew_failure_rollback_without_blob_compensation
    (s : Sys) (iid : String) (d : RenewData) (f : Option FileData) (u today : Nat) :
    (renew_contract s iid d f u today false).1.contracts = s.contracts ∧
    (renew_contract s iid d f u today false).1.documents = s.documents ∧
    (renew_contract s iid d f u today false).1.activities = s.activities ∧
    ((renew_contract s iid d f u today false).1.blobOps = s.blobOps ∨
      ∃ p, (renew_contract s iid d f u today false).1.blobOps =
        s.blobOps ++ [BlobOp.save p]) ∧
    ∃ e, (renew_contract s iid d f u today false).2 = .error e := by
  unfold renew_contract
  repeat' split
  all_goals simp_all

/-- C7 counterexample: `create_contract` performs no end-after-start
validation — a creation request whose end date (50) precedes its start
date (100) succeeds and writes the row. -/
theorem create_accepts_end_before_start :
    (create_contract initSys c7data none 1).2 =
      .ok { id := "CTR_0_V1", contractId := 0, contractName := "Gamma", fileName := none } ∧
    (create_contract initSys c7data none 1).1.contracts.length = 1 :=
  ⟨rfl, rfl⟩

/-- C7 (amended): on renew, a supplied `endDate <= startDate` always makes
the operation fail with no row written (whatever precondition fires first,
the state is returned unchanged); on create there is no such validation —
an otherwise-valid creation request with `endDate <= startDate` still
appends its row and succeeds. -/
theorem end_before_start_validation
    (sr : Sys) (iid : String) (d : RenewData) (f : Option FileData) (u today : Nat)
    (ok : Bool) (st en : Nat)
    (hst : d.new_start_date = some st) (hen : d.new_end_date = some en) (hle : en ≤ st)
    (sc : Sys) (dc : CreateData) (fc : Option FileData) (uc stc enc : Nat)
    (hname : dc.contractName ≠ "") (hclient : dc.clientName ≠ "")
    (htype0 : dc.contractType ≠ "")
    (htype : (get_contract_type_id dc.contractType).isSome = true)
    (hstart : dc.startDate = some stc) (hend : dc.endDate = some enc) (hlec : enc ≤ stc) :
    ((renew_contract sr iid d f u today ok).1 = sr ∧
      ∃ e, (renew_contract sr iid d f u today ok).2 = .error e) ∧
    (∃ c : Contract, (create_contract sc dc fc uc).1.contracts = sc.contracts ++ [c] ∧
      c.start_date = stc ∧ c.end_date = some enc ∧
      ∃ r, (create_contract sc dc fc uc).2 = .ok r) := by
  constructor
  · unfold renew_contract
    rw [hst, hen]
    cases hfound : find_by_instance_id sr.contracts iid with
    | none => simp
    | some old =>
      by_cases h1 : old.status ≠ "active"
      · simp [h1]
      · by_cases h2 : optTruthy old.renewed_to <;> simp [h1, h2, hle]
  · obtain ⟨tid, htid⟩ := Option.isSome_iff_exists.mp htype
    unfold create_contract
    rw [hstart, hend, htid]
    simp only [hname, hclient, htype0, if_neg, get_status_id, lookupId, reduceIte]
    exact ⟨_, rfl, rfl, rfl, _, rfl⟩

/-- Witness for `end_before_start_validation`: renewing with end 150 before
start 200 is rejected with no writes, while creating with end 50 before
start 100 writes the row. -/
theorem end_before_start_validation_witness :
    (((renew_contract activeSys "CTR_7_V1"
        { new_start_date := some 200, new_end_date := some 150 } (some pdfFile) 2 50
        true).1 = activeSys ∧
      ∃ e, (renew_contract activeSys "CTR_7_V1"
        { new_start_date := some 200, new_end_date := some 150 } (some pdfFile) 2 50
        true).2 = .error e) ∧
    (∃ c : Contract, (create_contract initSys c7data none 1).1.contracts =
        initSys.contracts ++ [c] ∧
      c.start_date = 100 ∧ c.end_date = some 50 ∧
      ∃ r, (create_contract initSys c7data none 1).2 = .ok r)) :=
  end_before_start_validation activeSys "CTR_7_V1"
    { new_start_date := some 200, new_end_date := some 150 } (some pdfFile) 2 50 true
    200 150 rfl rfl (by decide) initSys c7data none 1 100 50
    (by decide) (by decide) (by decide) (by decide) rfl rfl (by decide)

/-- C8 counterexample: the single `modified` event logged for the
50000 -> 75000 value change carries `$`-prefixed values
(`f-string "${old_value}"` in the source), not the bare digit strings the
claim asserts. -/
theorem update_value_event_values_carry_dollar_sign :
    (update_contract activeSys "CTR_7_V1" valuePatch).1.activities =
      [{ contract_instance_id := "CTR_7_V1", type := "modified",
         message := "Contract updated - 1 field(s) changed",
         changes := [{ field := "value", oldValue := "$50000", newValue := "$75000" }] }] ∧
    [({ field := "value", oldValue := "$50000", newValue := "$75000" } : FieldChange)] ≠
      [({ field := "value", oldValue := "50000", newValue := "75000" } : FieldChange)] :=
  ⟨rfl, by decide⟩

/-- C8 (amended): an update that changes exactly the value field from `v`
to `w` (both nonempty, different) appends exactly one `modified` activity,
whose changes equal `[{field: "value", oldValue: "$v", newValue: "$w"}]` —
the code logs the values with a `$` prefix. -/
theorem update_value_only_logs_one_event
    (s : Sys) (iid : String) (c : Contract) (v w : String)
    (hfind : find_by_instance_id s.contracts iid = some c)
    (hval : c.value = some v) (hv : v ≠ "") (hw : w ≠ "") (hne : v ≠ w) :
    (update_contract s iid { value := some w }).1.activities =
      s.activities ++
        [{ contract_instance_id := iid, type := "modified",
           message := "Contract updated - 1 field(s) changed",
           changes := [{ field := "value", oldValue := "$" ++ v,
                         newValue := "$" ++ w }] }] ∧
    (update_contract s iid { value := some w }).2 = .ok (some { c with value := some w }) := by
  unfold update_contract
  rw [hfind]
  simp only [applyPatch, diffChanges, truthyOrNone, hval, hv, hw, hne]
  simp [hv, hw, hne, Option.some_inj]
  rfl

/-- Witness for `update_value_only_logs_one_event` at the concrete
50000 -> 75000 change. -/
theorem update_value_only_logs_one_event_witness :
    (update_contract activeSys "CTR_7_V1" { value := some "75000" }).1.activities =
      activeSys.activities ++
        [{ contract_instance_id := "CTR_7_V1", type := "modified",
           message := "Contract updated - 1 field(s) changed",
           changes := [{ field := "value", oldValue := "$" ++ "50000",
                         newValue := "$" ++ "75000" }] }] ∧
    (update_contract activeSys "CTR_7_V1" { value := some "75000" }).2 =
      .ok (some { activeC with value := some "75000" }) :=
  update_value_only_logs_one_event activeSys "CTR_7_V1" activeC "50000" "75000"
    rfl rfl (by decide) (by decide) (by decide)

/-- C10: the attribute sets do not line up.  The renewal passes
`renewed_from` and `description` as constructor keywords, and the lifecycle
operations and serializers read or write `status`, `renewed_to`,
`renewed_from` and `description` on loaded rows, yet none of these names is
declared on the `Contract` model (its status relationship backref is named
`contract_status`, and no `description`, `renewed_from` or `renewed_to`
column exists) — so SQLAlchemy raises a `TypeError` on construction and an
`AttributeError` on access, and the renewal links are never persisted. -/
theorem contract_model_missing_lifecycle_attrs :
    renewConstructorAttrs.contains "renewed_from" = true ∧
    renewConstructorAttrs.contains "description" = true ∧
    contractModelAttrs.contains "renewed_from" = false ∧
    contractModelAttrs.contains "renewed_to" = false ∧
    contractModelAttrs.contains "description" = false ∧
    contractModelAttrs.contains "status" = false ∧
    lifecycleAccessedAttrs.all (fun a => !contractModelAttrs.contains a) = true := by
  decide

theorem chainVersions_append (l : List Contract) (c : Contract) (cid : Nat) :
    chainVersions (l ++ [c]) cid =
      chainVersions l cid ++ (if c.id = cid then [c.version] else []) := by
  simp only [chainVersions, List.filter_append, List.map_append]
  by_cases h : c.id = cid <;> simp [List.filter, h]

theorem chainVersions_map_preserve (f : Contract → Contract) (l : List Contract) (cid : Nat)
    (hid : ∀ x, (f x).id = x.id) (hver : ∀ x, (f x).version = x.version) :
    chainVersions (l.map f) cid = chainVersions l cid := by
  induction l with
  | nil => rfl
  | cons a t ih =>
    simp only [List.map_cons, chainVersions, List.filter_cons] at ih ⊢
    rw [hid a]
    by_cases h : a.id = cid <;> simp [h, hver a, ih]

theorem chainVersions_nil_of_fresh (l : List Contract) (n : Nat)
    (h : ∀ c ∈ l, c.id < n) : chainVersions l n = [] := by
  induction l with
  | nil => rfl
  | cons a t ih =>
    have ha : ¬(a.id = n) := Nat.ne_of_lt (h a (List.mem_cons_self a t))
    have ht := ih (fun c hc => h c (List.mem_cons_of_mem a hc))
    simp only [chainVersions, List.filter_cons] at ht ⊢
    simp [ha, ht]

theorem find_by_instance_id_mem (l : List Contract) (iid : String) (c : Contract)
    (h : find_by_instance_id l iid = some c) : c ∈ l := by
  induction l with
  | nil => simp [find_by_instance_id] at h
  | cons a t ih =>
    unfold find_by_instance_id at h
    split at h
    · exact (Option.some.inj h) ▸ List.mem_cons_self a t
    · exact List.mem_cons_of_mem a (ih h)

theorem get_max_version_eq_foldl (l : List Contract) (cid : Nat) :
    get_max_version l cid = (chainVersions l cid).foldl max 0 := by
  simp [get_max_version, chainVersions, List.foldl_map]

theorem foldl_max_range_one : ∀ n : Nat, (List.range' 1 n).foldl max 0 = n
  | 0 => rfl
  | n + 1 => by
    rw [List.range'_concat, List.foldl_append, foldl_max_range_one n]
    simp [List.foldl]
    omega

theorem chainInv_extend (s2 : Sys) (contracts : List Contract) (nextId : Nat) (c : Contract)
    (h2c : s2.contracts = contracts ++ [c]) (h2n : s2.nextId = nextId + 1)
    (hfresh : ∀ x ∈ contracts, x.id < nextId)
    (hchains : ∀ cid, ∃ n, chainVersions contracts cid = List.range' 1 n)
    (hc : c.id = nextId) (hv : c.version = 1) :
    ChainInv s2 := by
  constructor
  · rw [h2c, h2n]
    intro x hx
    rcases List.mem_append.mp hx with hm | hm
    · exact Nat.lt_succ_of_lt (hfresh x hm)
    · rw [List.mem_singleton.mp hm, hc]
      exact Nat.lt_succ_self nextId
  · rw [h2c]
    intro cid
    rw [chainVersions_append]
    by_cases hcid : c.id = cid
    · rw [← hcid, hc]
      rw [chainVersions_nil_of_fresh contracts nextId hfresh]
      exact ⟨1, by simp [hv]⟩
    · simp only [hcid, if_false, List.append_nil]
      exact hchains cid

theorem chainInv_renew_extend (s2 : Sys) (contracts : List Contract) (nextId : Nat)
    (f : Contract → Contract) (c : Contract)
    (h2c : s2.contracts = contracts.map f ++ [c]) (h2n : s2.nextId = nextId)
    (hid : ∀ x, (f x).id = x.id) (hver : ∀ x, (f x).version = x.version)
    (hex : ∃ y ∈ contracts, y.id = c.id)
    (hfresh : ∀ x ∈ contracts, x.id < nextId)
    (hchains : ∀ cid, ∃ n, chainVersions contracts cid = List.range' 1 n)
    (hcv : c.version = get_max_version contracts c.id + 1) :
    ChainInv s2 := by
  obtain ⟨y, hy, hyid⟩ := hex
  constructor
  · rw [h2c, h2n]
    intro x hx
    rcases List.mem_append.mp hx with hm | hm
    · obtain ⟨z, hz, hxz⟩ := List.mem_map.mp hm
      rw [← hxz, hid z]
      exact hfresh z hz
    · rw [List.mem_singleton.mp hm, ← hyid]
      exact hfresh y hy
  · rw [h2c]
    intro cid
    rw [chainVersions_append, chainVersions_map_preserve f contracts cid hid hver]
    by_cases hc : c.id = cid
    · obtain ⟨n, hn⟩ := hchains cid
      refine ⟨n + 1, ?_⟩
      have hmax : get_max_version contracts c.id = n := by
        rw [hc, get_max_version_eq_foldl, hn, foldl_max_range_one]
      rw [hn, if_pos hc, hcv, hmax, List.range'_concat]
      congr 1
      simp
      omega
    · simp only [hc, if_false, List.append_nil]
      exact hchains cid

theorem chainInv_applyOp (s : Sys) (op : Op) (h : ChainInv s) : ChainInv (applyOp s op) := by
  cases op with
  | create d f u =>
    dsimp only [applyOp]
    unfold create_contract
    repeat' split
    any_goals exact h
    all_goals exact chainInv_extend _ s.contracts s.nextId _ rfl rfl h.1 h.2 rfl rfl
  | renew iid d f u today ok =>
    dsimp only [applyOp]
    unfold renew_contract
    repeat' split
    any_goals exact h
    all_goals
      rename_i x3 oldc hfound h1 h2 x2 x1 sd ed hsd hed h3 h4 fl f0 x0 v0 hdraft hval hok
      exact chainInv_renew_extend _ s.contracts s.nextId _ _ rfl rfl
        (fun x => by by_cases hx : x.contract_instance_id = iid <;> simp [hx])
        (fun x => by by_cases hx : x.contract_instance_id = iid <;> simp [hx])
        ⟨oldc, find_by_instance_id_mem s.contracts iid oldc hfound, rfl⟩
        h.1 h.2 rfl

theorem chainInv_runOps (ops : List Op) (s : Sys) (h : ChainInv s) :
    ChainInv (runOps s ops) := by
  induction ops generalizing s with
  | nil => exact h
  | cons op rest ih => exact ih (applyOp s op) (chainInv_applyOp s op h)

theorem chainInv_initSys : ChainInv initSys :=
  ⟨fun c hc => absurd hc (List.not_mem_nil c), fun _ => ⟨0, rfl⟩⟩

/-- C5: after any sequence of create and renew operations from the empty
deployment, every chain's version numbers, in row order, are exactly
`1..N` with no gaps and no duplicates (`renew_contract` assigns each new
version `get_max_version + 1` by definition, and `create_contract` starts
each fresh chain at version 1). -/
theorem chain_versions_exactly_one_to_n (ops : List Op) (cid : Nat) :
    chainVersions (runOps initSys ops).contracts cid =
      List.range' 1 (chainVersions (runOps initSys ops).contracts cid).length := by
  obtain ⟨n, hn⟩ := (chainInv_runOps ops initSys chainInv_initSys).2 cid
  rw [hn, List.length_range']

end CMS
